import Mathlib

/-!
Shallow embedding of `plover/oslayer/linux/keyboardcontrol_uinput.py`:
the layout tables, the reverse map `KEYCODES_TO_SUPRESS`, the keyboard
emulation output (`_send_char`, `send_key_combination`), the device filter,
the grab loop, and the capture run loop with its `_should_suppress`
suppression state machine.
-/

namespace Plover

/-! Key code constants from the Linux input subsystem, as exposed by the
`evdev.ecodes` module the source imports as `e`. -/

def KEY_ESC : Nat := 1
def KEY_1 : Nat := 2
def KEY_2 : Nat := 3
def KEY_3 : Nat := 4
def KEY_4 : Nat := 5
def KEY_5 : Nat := 6
def KEY_6 : Nat := 7
def KEY_7 : Nat := 8
def KEY_8 : Nat := 9
def KEY_9 : Nat := 10
def KEY_0 : Nat := 11
def KEY_MINUS : Nat := 12
def KEY_EQUAL : Nat := 13
def KEY_BACKSPACE : Nat := 14
def KEY_TAB : Nat := 15
def KEY_Q : Nat := 16
def KEY_W : Nat := 17
def KEY_E : Nat := 18
def KEY_R : Nat := 19
def KEY_T : Nat := 20
def KEY_Y : Nat := 21
def KEY_U : Nat := 22
def KEY_I : Nat := 23
def KEY_O : Nat := 24
def KEY_P : Nat := 25
def KEY_LEFTBRACE : Nat := 26
def KEY_RIGHTBRACE : Nat := 27
def KEY_ENTER : Nat := 28
def KEY_LEFTCTRL : Nat := 29
def KEY_A : Nat := 30
def KEY_S : Nat := 31
def KEY_D : Nat := 32
def KEY_F : Nat := 33
def KEY_G : Nat := 34
def KEY_H : Nat := 35
def KEY_J : Nat := 36
def KEY_K : Nat := 37
def KEY_L : Nat := 38
def KEY_SEMICOLON : Nat := 39
def KEY_APOSTROPHE : Nat := 40
def KEY_GRAVE : Nat := 41
def KEY_LEFTSHIFT : Nat := 42
def KEY_BACKSLASH : Nat := 43
def KEY_Z : Nat := 44
def KEY_X : Nat := 45
def KEY_C : Nat := 46
def KEY_V : Nat := 47
def KEY_B : Nat := 48
def KEY_N : Nat := 49
def KEY_M : Nat := 50
def KEY_COMMA : Nat := 51
def KEY_DOT : Nat := 52
def KEY_SLASH : Nat := 53
def KEY_RIGHTSHIFT : Nat := 54
def KEY_KPASTERISK : Nat := 55
def KEY_LEFTALT : Nat := 56
def KEY_SPACE : Nat := 57
def KEY_CAPSLOCK : Nat := 58
def KEY_F1 : Nat := 59
def KEY_F2 : Nat := 60
def KEY_F3 : Nat := 61
def KEY_F4 : Nat := 62
def KEY_F5 : Nat := 63
def KEY_F6 : Nat := 64
def KEY_F7 : Nat := 65
def KEY_F8 : Nat := 66
def KEY_F9 : Nat := 67
def KEY_F10 : Nat := 68
def KEY_NUMLOCK : Nat := 69
def KEY_KP7 : Nat := 71
def KEY_KP8 : Nat := 72
def KEY_KP9 : Nat := 73
def KEY_KPMINUS : Nat := 74
def KEY_KP4 : Nat := 75
def KEY_KP5 : Nat := 76
def KEY_KP6 : Nat := 77
def KEY_KPPLUS : Nat := 78
def KEY_KP1 : Nat := 79
def KEY_KP2 : Nat := 80
def KEY_KP3 : Nat := 81
def KEY_KP0 : Nat := 82
def KEY_KPDOT : Nat := 83
def KEY_F11 : Nat := 87
def KEY_F12 : Nat := 88
def KEY_KPENTER : Nat := 96
def KEY_RIGHTCTRL : Nat := 97
def KEY_KPSLASH : Nat := 98
def KEY_RIGHTALT : Nat := 100
def KEY_HOME : Nat := 102
def KEY_UP : Nat := 103
def KEY_PAGEUP : Nat := 104
def KEY_LEFT : Nat := 105
def KEY_RIGHT : Nat := 106
def KEY_END : Nat := 107
def KEY_DOWN : Nat := 108
def KEY_PAGEDOWN : Nat := 109
def KEY_INSERT : Nat := 110
def KEY_DELETE : Nat := 111
def KEY_MUTE : Nat := 113
def KEY_VOLUMEDOWN : Nat := 114
def KEY_VOLUMEUP : Nat := 115
def KEY_KPEQUAL : Nat := 117
def KEY_PAUSE : Nat := 119
def KEY_LEFTMETA : Nat := 125
def KEY_RIGHTMETA : Nat := 126
def KEY_EJECTCD : Nat := 161
def KEY_REWIND : Nat := 168
def KEY_F13 : Nat := 183
def KEY_F14 : Nat := 184
def KEY_F15 : Nat := 185
def KEY_F16 : Nat := 186
def KEY_F17 : Nat := 187
def KEY_F18 : Nat := 188
def KEY_F19 : Nat := 189
def KEY_F20 : Nat := 190
def KEY_F21 : Nat := 191
def KEY_F22 : Nat := 192
def KEY_F23 : Nat := 193
def KEY_F24 : Nat := 194
def KEY_PLAY : Nat := 207
def KEY_PRINT : Nat := 210
def KEY_BRIGHTNESSDOWN : Nat := 224
def KEY_BRIGHTNESSUP : Nat := 225
def KEY_KBDILLUMDOWN : Nat := 229
def KEY_KBDILLUMUP : Nat := 230
def KEY_CLEAR : Nat := 355
def KEY_NEXT : Nat := 407
def KEY_FN : Nat := 464

/-- Mirrors the `KeyCodeInfo` dataclass: a key code plus the other key codes
that must be pressed with it to send the key. -/
structure KeyCodeInfo where
  keycode : Nat
  modifiers : List Nat
deriving DecidableEq

/-- A Python dict literal is modelled as its ordered item list; duplicate
keys are resolved by `lookupLast` (last write wins), matching dict update
semantics. -/
abbrev LayoutTable := List (String × KeyCodeInfo)

/-- Lookup in an ordered item list with Python-dict semantics: the value of
the LAST pair whose key matches (later writes overwrite earlier ones). -/
def lookupLast {κ α : Type} [DecidableEq κ] (key : κ) : List (κ × α) → Option α
  | [] => none
  | p :: rest =>
    match lookupLast key rest with
    | some v => some v
    | none => if p.1 = key then some p.2 else none

/-- `BASE_LAYOUT`: shared keys between all layouts, in source order. -/
def BASE_LAYOUT : LayoutTable := [
  ("alt_l", ⟨KEY_LEFTALT, []⟩),
  ("alt_r", ⟨KEY_RIGHTALT, []⟩),
  ("alt", ⟨KEY_LEFTALT, []⟩),
  ("ctrl_l", ⟨KEY_LEFTCTRL, []⟩),
  ("ctrl_r", ⟨KEY_RIGHTCTRL, []⟩),
  ("ctrl", ⟨KEY_LEFTCTRL, []⟩),
  ("control_l", ⟨KEY_LEFTCTRL, []⟩),
  ("control_r", ⟨KEY_RIGHTCTRL, []⟩),
  ("control", ⟨KEY_LEFTCTRL, []⟩),
  ("shift_l", ⟨KEY_LEFTSHIFT, []⟩),
  ("shift_r", ⟨KEY_RIGHTSHIFT, []⟩),
  ("shift", ⟨KEY_LEFTSHIFT, []⟩),
  ("super_l", ⟨KEY_LEFTMETA, []⟩),
  ("super_r", ⟨KEY_RIGHTMETA, []⟩),
  ("super", ⟨KEY_LEFTMETA, []⟩),
  ("\x60", ⟨KEY_GRAVE, []⟩),
  ("~", ⟨KEY_GRAVE, [KEY_LEFTSHIFT]⟩),
  ("1", ⟨KEY_1, []⟩),
  ("!", ⟨KEY_1, [KEY_LEFTSHIFT]⟩),
  ("2", ⟨KEY_2, []⟩),
  ("@", ⟨KEY_2, [KEY_LEFTSHIFT]⟩),
  ("3", ⟨KEY_3, []⟩),
  ("#", ⟨KEY_3, [KEY_LEFTSHIFT]⟩),
  ("4", ⟨KEY_4, []⟩),
  ("$", ⟨KEY_4, [KEY_LEFTSHIFT]⟩),
  ("5", ⟨KEY_5, []⟩),
  ("%", ⟨KEY_5, [KEY_LEFTSHIFT]⟩),
  ("6", ⟨KEY_6, []⟩),
  ("^", ⟨KEY_6, [KEY_LEFTSHIFT]⟩),
  ("7", ⟨KEY_7, []⟩),
  ("&", ⟨KEY_7, [KEY_LEFTSHIFT]⟩),
  ("8", ⟨KEY_8, []⟩),
  ("*", ⟨KEY_8, [KEY_LEFTSHIFT]⟩),
  ("9", ⟨KEY_9, []⟩),
  ("(", ⟨KEY_9, [KEY_LEFTSHIFT]⟩),
  ("0", ⟨KEY_0, []⟩),
  (")", ⟨KEY_0, [KEY_LEFTSHIFT]⟩),
  ("-", ⟨KEY_MINUS, []⟩),
  ("_", ⟨KEY_MINUS, [KEY_LEFTSHIFT]⟩),
  ("=", ⟨KEY_EQUAL, []⟩),
  ("+", ⟨KEY_EQUAL, [KEY_LEFTSHIFT]⟩),
  ("\x08", ⟨KEY_BACKSPACE, []⟩),
  (" ", ⟨KEY_SPACE, []⟩),
  ("\n", ⟨KEY_ENTER, []⟩),
  ("return", ⟨KEY_ENTER, []⟩),
  ("tab", ⟨KEY_TAB, []⟩),
  ("backspace", ⟨KEY_BACKSPACE, []⟩),
  ("delete", ⟨KEY_DELETE, []⟩)] ++ [
  ("escape", ⟨KEY_ESC, []⟩),
  ("clear", ⟨KEY_CLEAR, []⟩),
  ("up", ⟨KEY_UP, []⟩),
  ("down", ⟨KEY_DOWN, []⟩),
  ("left", ⟨KEY_LEFT, []⟩),
  ("right", ⟨KEY_RIGHT, []⟩),
  ("page_up", ⟨KEY_PAGEUP, []⟩),
  ("page_down", ⟨KEY_PAGEDOWN, []⟩),
  ("home", ⟨KEY_HOME, []⟩),
  ("insert", ⟨KEY_INSERT, []⟩),
  ("end", ⟨KEY_END, []⟩),
  ("space", ⟨KEY_SPACE, []⟩),
  ("print", ⟨KEY_PRINT, []⟩),
  ("fn", ⟨KEY_FN, []⟩),
  ("f1", ⟨KEY_F1, []⟩),
  ("f2", ⟨KEY_F2, []⟩),
  ("f3", ⟨KEY_F3, []⟩),
  ("f4", ⟨KEY_F4, []⟩),
  ("f5", ⟨KEY_F5, []⟩),
  ("f6", ⟨KEY_F6, []⟩),
  ("f7", ⟨KEY_F7, []⟩),
  ("f8", ⟨KEY_F8, []⟩),
  ("f9", ⟨KEY_F9, []⟩),
  ("f10", ⟨KEY_F10, []⟩),
  ("f11", ⟨KEY_F11, []⟩),
  ("f12", ⟨KEY_F12, []⟩),
  ("f13", ⟨KEY_F13, []⟩),
  ("f14", ⟨KEY_F14, []⟩),
  ("f15", ⟨KEY_F15, []⟩),
  ("f16", ⟨KEY_F16, []⟩),
  ("f17", ⟨KEY_F17, []⟩),
  ("f18", ⟨KEY_F18, []⟩),
  ("f19", ⟨KEY_F19, []⟩),
  ("f20", ⟨KEY_F20, []⟩),
  ("f21", ⟨KEY_F21, []⟩),
  ("f22", ⟨KEY_F22, []⟩),
  ("f23", ⟨KEY_F23, []⟩),
  ("f24", ⟨KEY_F24, []⟩),
  ("kp_1", ⟨KEY_KP1, []⟩)] ++ [
  ("kp_2", ⟨KEY_KP2, []⟩),
  ("kp_3", ⟨KEY_KP3, []⟩),
  ("kp_4", ⟨KEY_KP4, []⟩),
  ("kp_5", ⟨KEY_KP5, []⟩),
  ("kp_6", ⟨KEY_KP6, []⟩),
  ("kp_7", ⟨KEY_KP7, []⟩),
  ("kp_8", ⟨KEY_KP8, []⟩),
  ("kp_9", ⟨KEY_KP9, []⟩),
  ("kp_0", ⟨KEY_KP0, []⟩),
  ("kp_add", ⟨KEY_KPPLUS, []⟩),
  ("kp_decimal", ⟨KEY_KPDOT, []⟩),
  ("kp_delete", ⟨KEY_DELETE, []⟩),
  ("kp_divide", ⟨KEY_KPSLASH, []⟩),
  ("kp_enter", ⟨KEY_KPENTER, []⟩),
  ("kp_equal", ⟨KEY_KPEQUAL, []⟩),
  ("kp_multiply", ⟨KEY_KPASTERISK, []⟩),
  ("kp_subtract", ⟨KEY_KPMINUS, []⟩),
  ("audioraisevolume", ⟨KEY_VOLUMEUP, []⟩),
  ("audiolowervolume", ⟨KEY_VOLUMEDOWN, []⟩),
  ("monbrightnessup", ⟨KEY_BRIGHTNESSUP, []⟩),
  ("monbrightnessdown", ⟨KEY_BRIGHTNESSDOWN, []⟩),
  ("audiomute", ⟨KEY_MUTE, []⟩),
  ("num_lock", ⟨KEY_NUMLOCK, []⟩),
  ("eject", ⟨KEY_EJECTCD, []⟩),
  ("audiopause", ⟨KEY_PAUSE, []⟩),
  ("audionext", ⟨KEY_NEXT, []⟩),
  ("audioplay", ⟨KEY_PLAY, []⟩),
  ("audiorewind", ⟨KEY_REWIND, []⟩),
  ("kbdbrightnessup", ⟨KEY_KBDILLUMUP, []⟩),
  ("kbdbrightnessdown", ⟨KEY_KBDILLUMDOWN, []⟩)]

/-- `MODIFIER_KEY_CODES`, in source order. -/
def MODIFIER_KEY_CODES : List Nat := [
  KEY_LEFTSHIFT, KEY_RIGHTSHIFT,
  KEY_LEFTCTRL, KEY_RIGHTCTRL,
  KEY_LEFTALT, KEY_RIGHTALT,
  KEY_LEFTMETA, KEY_RIGHTMETA]

/-- The qwerty layout dict: `{**BASE_LAYOUT, ...}` in source order. -/
def qwerty : LayoutTable := BASE_LAYOUT ++ [
  ("q", ⟨KEY_Q, []⟩),
  ("Q", ⟨KEY_Q, [KEY_LEFTSHIFT]⟩),
  ("w", ⟨KEY_W, []⟩),
  ("W", ⟨KEY_W, [KEY_LEFTSHIFT]⟩),
  ("e", ⟨KEY_E, []⟩),
  ("E", ⟨KEY_E, [KEY_LEFTSHIFT]⟩),
  ("r", ⟨KEY_R, []⟩),
  ("R", ⟨KEY_R, [KEY_LEFTSHIFT]⟩),
  ("t", ⟨KEY_T, []⟩),
  ("T", ⟨KEY_T, [KEY_LEFTSHIFT]⟩),
  ("y", ⟨KEY_Y, []⟩),
  ("Y", ⟨KEY_Y, [KEY_LEFTSHIFT]⟩),
  ("u", ⟨KEY_U, []⟩),
  ("U", ⟨KEY_U, [KEY_LEFTSHIFT]⟩),
  ("i", ⟨KEY_I, []⟩),
  ("I", ⟨KEY_I, [KEY_LEFTSHIFT]⟩),
  ("o", ⟨KEY_O, []⟩),
  ("O", ⟨KEY_O, [KEY_LEFTSHIFT]⟩),
  ("p", ⟨KEY_P, []⟩),
  ("P", ⟨KEY_P, [KEY_LEFTSHIFT]⟩),
  ("[", ⟨KEY_LEFTBRACE, []⟩),
  ("\x7b", ⟨KEY_LEFTBRACE, [KEY_LEFTSHIFT]⟩),
  ("]", ⟨KEY_RIGHTBRACE, []⟩),
  ("\x7d", ⟨KEY_RIGHTBRACE, [KEY_LEFTSHIFT]⟩),
  ("\\", ⟨KEY_BACKSLASH, []⟩),
  ("|", ⟨KEY_BACKSLASH, [KEY_LEFTSHIFT]⟩)] ++ [
  ("a", ⟨KEY_A, []⟩),
  ("A", ⟨KEY_A, [KEY_LEFTSHIFT]⟩),
  ("s", ⟨KEY_S, []⟩),
  ("S", ⟨KEY_S, [KEY_LEFTSHIFT]⟩),
  ("d", ⟨KEY_D, []⟩),
  ("D", ⟨KEY_D, [KEY_LEFTSHIFT]⟩),
  ("f", ⟨KEY_F, []⟩),
  ("F", ⟨KEY_F, [KEY_LEFTSHIFT]⟩),
  ("g", ⟨KEY_G, []⟩),
  ("G", ⟨KEY_G, [KEY_LEFTSHIFT]⟩),
  ("h", ⟨KEY_H, []⟩),
  ("H", ⟨KEY_H, [KEY_LEFTSHIFT]⟩),
  ("j", ⟨KEY_J, []⟩),
  ("J", ⟨KEY_J, [KEY_LEFTSHIFT]⟩),
  ("k", ⟨KEY_K, []⟩),
  ("K", ⟨KEY_K, [KEY_LEFTSHIFT]⟩),
  ("l", ⟨KEY_L, []⟩),
  ("L", ⟨KEY_L, [KEY_LEFTSHIFT]⟩),
  (";", ⟨KEY_SEMICOLON, []⟩),
  (":", ⟨KEY_SEMICOLON, [KEY_LEFTSHIFT]⟩),
  ("\x27", ⟨KEY_APOSTROPHE, []⟩),
  ("\"", ⟨KEY_APOSTROPHE, [KEY_LEFTSHIFT]⟩)] ++ [
  ("z", ⟨KEY_Z, []⟩),
  ("Z", ⟨KEY_Z, [KEY_LEFTSHIFT]⟩),
  ("x", ⟨KEY_X, []⟩),
  ("X", ⟨KEY_X, [KEY_LEFTSHIFT]⟩),
  ("c", ⟨KEY_C, []⟩),
  ("C", ⟨KEY_C, [KEY_LEFTSHIFT]⟩),
  ("v", ⟨KEY_V, []⟩),
  ("V", ⟨KEY_V, [KEY_LEFTSHIFT]⟩),
  ("b", ⟨KEY_B, []⟩),
  ("B", ⟨KEY_B, [KEY_LEFTSHIFT]⟩),
  ("n", ⟨KEY_N, []⟩),
  ("N", ⟨KEY_N, [KEY_LEFTSHIFT]⟩),
  ("m", ⟨KEY_M, []⟩),
  ("M", ⟨KEY_M, [KEY_LEFTSHIFT]⟩),
  (",", ⟨KEY_COMMA, []⟩),
  ("<", ⟨KEY_COMMA, [KEY_LEFTSHIFT]⟩),
  (".", ⟨KEY_DOT, []⟩),
  (">", ⟨KEY_DOT, [KEY_LEFTSHIFT]⟩),
  ("/", ⟨KEY_SLASH, []⟩),
  ("?", ⟨KEY_SLASH, [KEY_LEFTSHIFT]⟩)]

/-- The qwertz layout dict: `{**BASE_LAYOUT, ...}` in source order. -/
def qwertz : LayoutTable := BASE_LAYOUT ++ [
  ("°", ⟨KEY_GRAVE, [KEY_LEFTSHIFT]⟩),
  ("1", ⟨KEY_1, []⟩),
  ("!", ⟨KEY_1, [KEY_LEFTSHIFT]⟩),
  ("2", ⟨KEY_2, []⟩),
  ("\"", ⟨KEY_2, [KEY_LEFTSHIFT]⟩),
  ("3", ⟨KEY_3, []⟩),
  ("§", ⟨KEY_3, [KEY_LEFTSHIFT]⟩),
  ("4", ⟨KEY_4, []⟩),
  ("$", ⟨KEY_4, [KEY_LEFTSHIFT]⟩),
  ("5", ⟨KEY_5, []⟩),
  ("%", ⟨KEY_5, [KEY_LEFTSHIFT]⟩),
  ("6", ⟨KEY_6, []⟩),
  ("&", ⟨KEY_6, [KEY_LEFTSHIFT]⟩),
  ("7", ⟨KEY_7, []⟩),
  ("/", ⟨KEY_7, [KEY_LEFTSHIFT]⟩),
  ("8", ⟨KEY_8, []⟩),
  ("(", ⟨KEY_8, [KEY_LEFTSHIFT]⟩),
  ("9", ⟨KEY_9, []⟩),
  (")", ⟨KEY_9, [KEY_LEFTSHIFT]⟩),
  ("0", ⟨KEY_0, []⟩),
  ("=", ⟨KEY_0, [KEY_LEFTSHIFT]⟩),
  ("ß", ⟨KEY_MINUS, []⟩),
  ("?", ⟨KEY_MINUS, [KEY_LEFTSHIFT]⟩),
  ("\x60", ⟨KEY_EQUAL, [KEY_LEFTSHIFT]⟩),
  ("\x08", ⟨KEY_BACKSPACE, []⟩)] ++ [
  ("q", ⟨KEY_Q, []⟩),
  ("Q", ⟨KEY_Q, [KEY_LEFTSHIFT]⟩),
  ("w", ⟨KEY_W, []⟩),
  ("W", ⟨KEY_W, [KEY_LEFTSHIFT]⟩),
  ("e", ⟨KEY_E, []⟩),
  ("E", ⟨KEY_E, [KEY_LEFTSHIFT]⟩),
  ("r", ⟨KEY_R, []⟩),
  ("R", ⟨KEY_R, [KEY_LEFTSHIFT]⟩),
  ("t", ⟨KEY_T, []⟩),
  ("T", ⟨KEY_T, [KEY_LEFTSHIFT]⟩),
  ("z", ⟨KEY_Y, []⟩),
  ("Z", ⟨KEY_Y, [KEY_LEFTSHIFT]⟩),
  ("u", ⟨KEY_U, []⟩),
  ("U", ⟨KEY_U, [KEY_LEFTSHIFT]⟩),
  ("i", ⟨KEY_I, []⟩),
  ("I", ⟨KEY_I, [KEY_LEFTSHIFT]⟩),
  ("o", ⟨KEY_O, []⟩),
  ("O", ⟨KEY_O, [KEY_LEFTSHIFT]⟩),
  ("p", ⟨KEY_P, []⟩),
  ("P", ⟨KEY_P, [KEY_LEFTSHIFT]⟩),
  ("ü", ⟨KEY_LEFTBRACE, []⟩),
  ("Ü", ⟨KEY_LEFTBRACE, [KEY_LEFTSHIFT]⟩),
  ("+", ⟨KEY_RIGHTBRACE, []⟩),
  ("*", ⟨KEY_RIGHTBRACE, [KEY_LEFTSHIFT]⟩),
  ("#", ⟨KEY_BACKSLASH, []⟩),
  ("\x27", ⟨KEY_BACKSLASH, [KEY_LEFTSHIFT]⟩)] ++ [
  ("a", ⟨KEY_A, []⟩),
  ("A", ⟨KEY_A, [KEY_LEFTSHIFT]⟩),
  ("s", ⟨KEY_S, []⟩),
  ("S", ⟨KEY_S, [KEY_LEFTSHIFT]⟩),
  ("d", ⟨KEY_D, []⟩),
  ("D", ⟨KEY_D, [KEY_LEFTSHIFT]⟩),
  ("f", ⟨KEY_F, []⟩),
  ("F", ⟨KEY_F, [KEY_LEFTSHIFT]⟩),
  ("g", ⟨KEY_G, []⟩),
  ("G", ⟨KEY_G, [KEY_LEFTSHIFT]⟩),
  ("h", ⟨KEY_H, []⟩),
  ("H", ⟨KEY_H, [KEY_LEFTSHIFT]⟩),
  ("j", ⟨KEY_J, []⟩),
  ("J", ⟨KEY_J, [KEY_LEFTSHIFT]⟩),
  ("k", ⟨KEY_K, []⟩),
  ("K", ⟨KEY_K, [KEY_LEFTSHIFT]⟩),
  ("l", ⟨KEY_L, []⟩),
  ("L", ⟨KEY_L, [KEY_LEFTSHIFT]⟩),
  ("ö", ⟨KEY_SEMICOLON, []⟩),
  ("Ö", ⟨KEY_SEMICOLON, [KEY_LEFTSHIFT]⟩),
  ("ä", ⟨KEY_APOSTROPHE, []⟩),
  ("Ä", ⟨KEY_APOSTROPHE, []⟩),
  ("y", ⟨KEY_Z, []⟩),
  ("Y", ⟨KEY_Z, [KEY_LEFTSHIFT]⟩),
  ("x", ⟨KEY_X, []⟩),
  ("X", ⟨KEY_X, [KEY_LEFTSHIFT]⟩),
  ("c", ⟨KEY_C, []⟩),
  ("C", ⟨KEY_C, [KEY_LEFTSHIFT]⟩),
  ("v", ⟨KEY_V, []⟩),
  ("V", ⟨KEY_V, [KEY_LEFTSHIFT]⟩),
  ("b", ⟨KEY_B, []⟩),
  ("B", ⟨KEY_B, [KEY_LEFTSHIFT]⟩),
  ("n", ⟨KEY_N, []⟩),
  ("N", ⟨KEY_N, [KEY_LEFTSHIFT]⟩),
  ("m", ⟨KEY_M, []⟩),
  ("M", ⟨KEY_M, [KEY_LEFTSHIFT]⟩),
  (",", ⟨KEY_COMMA, []⟩),
  ("<", ⟨KEY_COMMA, [KEY_LEFTSHIFT]⟩),
  (".", ⟨KEY_DOT, []⟩),
  (">", ⟨KEY_DOT, [KEY_LEFTSHIFT]⟩),
  ("-", ⟨KEY_SLASH, []⟩),
  ("_", ⟨KEY_SLASH, [KEY_LEFTSHIFT]⟩)]

/-- The colemak layout dict: `{**BASE_LAYOUT, ...}` in source order. -/
def colemak : LayoutTable := BASE_LAYOUT ++ [
  ("q", ⟨KEY_Q, []⟩),
  ("Q", ⟨KEY_Q, [KEY_LEFTSHIFT]⟩),
  ("w", ⟨KEY_W, []⟩),
  ("W", ⟨KEY_W, [KEY_LEFTSHIFT]⟩),
  ("f", ⟨KEY_E, []⟩),
  ("F", ⟨KEY_E, [KEY_LEFTSHIFT]⟩),
  ("p", ⟨KEY_R, []⟩),
  ("P", ⟨KEY_R, [KEY_LEFTSHIFT]⟩),
  ("g", ⟨KEY_T, []⟩),
  ("G", ⟨KEY_T, [KEY_LEFTSHIFT]⟩),
  ("j", ⟨KEY_Y, []⟩),
  ("J", ⟨KEY_Y, [KEY_LEFTSHIFT]⟩),
  ("l", ⟨KEY_U, []⟩),
  ("L", ⟨KEY_U, [KEY_LEFTSHIFT]⟩),
  ("u", ⟨KEY_I, []⟩),
  ("U", ⟨KEY_I, [KEY_LEFTSHIFT]⟩),
  ("y", ⟨KEY_O, []⟩),
  ("Y", ⟨KEY_O, [KEY_LEFTSHIFT]⟩),
  (";", ⟨KEY_O, []⟩),
  (":", ⟨KEY_O, [KEY_LEFTSHIFT]⟩),
  ("[", ⟨KEY_LEFTBRACE, []⟩),
  ("\x7b", ⟨KEY_LEFTBRACE, [KEY_LEFTSHIFT]⟩),
  ("]", ⟨KEY_RIGHTBRACE, []⟩),
  ("\x7d", ⟨KEY_RIGHTBRACE, [KEY_LEFTSHIFT]⟩),
  ("\\", ⟨KEY_BACKSLASH, []⟩),
  ("|", ⟨KEY_BACKSLASH, [KEY_LEFTSHIFT]⟩)] ++ [
  ("a", ⟨KEY_A, []⟩),
  ("A", ⟨KEY_A, [KEY_LEFTSHIFT]⟩),
  ("r", ⟨KEY_S, []⟩),
  ("R", ⟨KEY_S, [KEY_LEFTSHIFT]⟩),
  ("s", ⟨KEY_D, []⟩),
  ("S", ⟨KEY_D, [KEY_LEFTSHIFT]⟩),
  ("t", ⟨KEY_F, []⟩),
  ("T", ⟨KEY_F, [KEY_LEFTSHIFT]⟩),
  ("d", ⟨KEY_G, []⟩),
  ("D", ⟨KEY_G, [KEY_LEFTSHIFT]⟩),
  ("h", ⟨KEY_H, []⟩),
  ("H", ⟨KEY_H, [KEY_LEFTSHIFT]⟩),
  ("n", ⟨KEY_J, []⟩),
  ("N", ⟨KEY_J, [KEY_LEFTSHIFT]⟩),
  ("e", ⟨KEY_K, []⟩),
  ("E", ⟨KEY_K, [KEY_LEFTSHIFT]⟩),
  ("i", ⟨KEY_L, []⟩),
  ("I", ⟨KEY_L, [KEY_LEFTSHIFT]⟩),
  ("o", ⟨KEY_SEMICOLON, []⟩),
  ("O", ⟨KEY_SEMICOLON, [KEY_LEFTSHIFT]⟩),
  ("\x27", ⟨KEY_APOSTROPHE, []⟩),
  ("\"", ⟨KEY_APOSTROPHE, [KEY_LEFTSHIFT]⟩)] ++ [
  ("z", ⟨KEY_Z, []⟩),
  ("Z", ⟨KEY_Z, [KEY_LEFTSHIFT]⟩),
  ("x", ⟨KEY_X, []⟩),
  ("X", ⟨KEY_X, [KEY_LEFTSHIFT]⟩),
  ("c", ⟨KEY_C, []⟩),
  ("C", ⟨KEY_C, [KEY_LEFTSHIFT]⟩),
  ("v", ⟨KEY_V, []⟩),
  ("V", ⟨KEY_V, [KEY_LEFTSHIFT]⟩),
  ("b", ⟨KEY_B, []⟩),
  ("B", ⟨KEY_B, [KEY_LEFTSHIFT]⟩),
  ("k", ⟨KEY_N, []⟩),
  ("K", ⟨KEY_N, [KEY_LEFTSHIFT]⟩),
  ("m", ⟨KEY_M, []⟩),
  ("M", ⟨KEY_M, [KEY_LEFTSHIFT]⟩),
  (",", ⟨KEY_COMMA, []⟩),
  ("<", ⟨KEY_COMMA, [KEY_LEFTSHIFT]⟩),
  (".", ⟨KEY_DOT, []⟩),
  (">", ⟨KEY_DOT, [KEY_LEFTSHIFT]⟩),
  ("/", ⟨KEY_SLASH, []⟩),
  ("?", ⟨KEY_SLASH, [KEY_LEFTSHIFT]⟩)]

/-- The colemak-dh layout dict: `{**BASE_LAYOUT, ...}` in source order. -/
def colemakDh : LayoutTable := BASE_LAYOUT ++ [
  ("q", ⟨KEY_Q, []⟩),
  ("Q", ⟨KEY_Q, [KEY_LEFTSHIFT]⟩),
  ("w", ⟨KEY_W, []⟩),
  ("W", ⟨KEY_W, [KEY_LEFTSHIFT]⟩),
  ("f", ⟨KEY_E, []⟩),
  ("F", ⟨KEY_E, [KEY_LEFTSHIFT]⟩),
  ("p", ⟨KEY_R, []⟩),
  ("P", ⟨KEY_R, [KEY_LEFTSHIFT]⟩),
  ("b", ⟨KEY_T, []⟩),
  ("B", ⟨KEY_T, [KEY_LEFTSHIFT]⟩),
  ("j", ⟨KEY_Y, []⟩),
  ("J", ⟨KEY_Y, [KEY_LEFTSHIFT]⟩),
  ("l", ⟨KEY_U, []⟩),
  ("L", ⟨KEY_U, [KEY_LEFTSHIFT]⟩),
  ("u", ⟨KEY_I, []⟩),
  ("U", ⟨KEY_I, [KEY_LEFTSHIFT]⟩),
  ("y", ⟨KEY_O, []⟩),
  ("Y", ⟨KEY_O, [KEY_LEFTSHIFT]⟩),
  (";", ⟨KEY_P, []⟩),
  (":", ⟨KEY_P, [KEY_LEFTSHIFT]⟩),
  ("[", ⟨KEY_LEFTBRACE, []⟩),
  ("\x7b", ⟨KEY_LEFTBRACE, [KEY_LEFTSHIFT]⟩),
  ("]", ⟨KEY_RIGHTBRACE, []⟩),
  ("\x7d", ⟨KEY_RIGHTBRACE, [KEY_LEFTSHIFT]⟩),
  ("\\", ⟨KEY_BACKSLASH, []⟩),
  ("|", ⟨KEY_BACKSLASH, [KEY_LEFTSHIFT]⟩)] ++ [
  ("a", ⟨KEY_A, []⟩),
  ("A", ⟨KEY_A, [KEY_LEFTSHIFT]⟩),
  ("r", ⟨KEY_S, []⟩),
  ("R", ⟨KEY_S, [KEY_LEFTSHIFT]⟩),
  ("s", ⟨KEY_D, []⟩),
  ("S", ⟨KEY_D, [KEY_LEFTSHIFT]⟩),
  ("t", ⟨KEY_F, []⟩),
  ("T", ⟨KEY_F, [KEY_LEFTSHIFT]⟩),
  ("g", ⟨KEY_G, []⟩),
  ("G", ⟨KEY_G, [KEY_LEFTSHIFT]⟩),
  ("m", ⟨KEY_H, []⟩),
  ("M", ⟨KEY_H, [KEY_LEFTSHIFT]⟩),
  ("n", ⟨KEY_J, []⟩),
  ("N", ⟨KEY_J, [KEY_LEFTSHIFT]⟩),
  ("e", ⟨KEY_K, []⟩),
  ("E", ⟨KEY_K, [KEY_LEFTSHIFT]⟩),
  ("i", ⟨KEY_L, []⟩),
  ("I", ⟨KEY_L, [KEY_LEFTSHIFT]⟩),
  ("o", ⟨KEY_SEMICOLON, []⟩),
  ("O", ⟨KEY_SEMICOLON, [KEY_LEFTSHIFT]⟩),
  ("\x27", ⟨KEY_APOSTROPHE, []⟩),
  ("\"", ⟨KEY_APOSTROPHE, [KEY_LEFTSHIFT]⟩)] ++ [
  ("x", ⟨KEY_Z, []⟩),
  ("X", ⟨KEY_Z, [KEY_LEFTSHIFT]⟩),
  ("c", ⟨KEY_X, []⟩),
  ("C", ⟨KEY_X, [KEY_LEFTSHIFT]⟩),
  ("d", ⟨KEY_C, []⟩),
  ("D", ⟨KEY_C, [KEY_LEFTSHIFT]⟩),
  ("v", ⟨KEY_V, []⟩),
  ("V", ⟨KEY_V, [KEY_LEFTSHIFT]⟩),
  ("z", ⟨KEY_B, []⟩),
  ("Z", ⟨KEY_B, [KEY_LEFTSHIFT]⟩),
  ("k", ⟨KEY_N, []⟩),
  ("K", ⟨KEY_N, [KEY_LEFTSHIFT]⟩),
  ("h", ⟨KEY_M, []⟩),
  ("H", ⟨KEY_M, [KEY_LEFTSHIFT]⟩),
  (",", ⟨KEY_COMMA, []⟩),
  ("<", ⟨KEY_COMMA, [KEY_LEFTSHIFT]⟩),
  (".", ⟨KEY_DOT, []⟩),
  (">", ⟨KEY_DOT, [KEY_LEFTSHIFT]⟩),
  ("/", ⟨KEY_SLASH, []⟩),
  ("?", ⟨KEY_SLASH, [KEY_LEFTSHIFT]⟩)]

def DEFAULT_LAYOUT : String := "qwerty"

/-- The `LAYOUTS` dict, in source order. -/
def LAYOUTS : List (String × LayoutTable) := [
  ("qwerty", qwerty),
  ("qwertz", qwertz),
  ("colemak", colemak),
  ("colemak-dh", colemakDh)]

/-- `KEYCODES_TO_SUPRESS` (sic): reverse map from key code to logical name,
built from the default (qwerty) layout keeping only entries with no
modifiers. The dict comprehension makes the last matching entry win, which
`lookupLast` reproduces. -/
def KEYCODES_TO_SUPRESS : List (Nat × String) :=
  (qwerty.filter (fun p => p.2.modifiers.isEmpty)).map (fun p => (p.2.keycode, p.1))

/-- The characters of Python's `string.printable[:-5]`: every printable
ASCII character except the trailing five control characters, i.e. the
single-character strings for code points 32 through 126. -/
def requiredKeys : List String :=
  (List.range 95).map (fun i => String.mk [Char.ofNat (32 + i)])

/-- A logical name resolves in a layout when it is a key of the layout
mapping. -/
def resolves (layout : LayoutTable) (keyName : String) : Bool :=
  (lookupLast keyName layout).isSome

/-! Event value constants from `evdev.KeyEvent`. -/

def key_up : Nat := 0
def key_down : Nat := 1
def key_hold : Nat := 2

/-- Event type constant `e.EV_KEY`. -/
def EV_KEY : Nat := 1

/-! ## KeyboardEmulation -/

/-- One observable effect of `KeyboardEmulation` on the UInput device (or
its logging): an `EV_KEY` write, a `syn()` barrier, a call to the injected
pacing function `delay()`, or the Unicode fallback. -/
inductive EmuAction where
  | write (code : Nat) (value : Nat)
  | syn
  | delay
  | unicodeFallback (codepoint : Nat)
deriving DecidableEq

/-- `_press_key(key, state)`: one `EV_KEY` write followed by `syn()`. -/
def pressKey (key : Nat) (state : Bool) : List EmuAction :=
  [.write key (if state then 1 else 0), .syn]

/-- `_get_key(key)`: the key code and potential modifiers for a key,
`(None, [])` when the key is not in the layout dict. -/
def getKey (layout : LayoutTable) (key : String) : Option Nat × List Nat :=
  match lookupLast key layout with
  | some keyMapInfo => (some keyMapInfo.keycode, keyMapInfo.modifiers)
  | none => (none, [])

/-- `_send_char(char)`: if the key resolves, press the modifiers in list
order, delay, press and release the base key, then release the modifiers
(the source's second `for mod in mods` loop, again in list order). If it
does not resolve, `_send_unicode(hex(ord(char))[2:])` is invoked; that
recursive call (an IME escape sequence typed through the same paths) is
abstracted here as the single `unicodeFallback` action carrying
`ord(char)`. -/
def sendChar (layout : LayoutTable) (char : Char) : List EmuAction :=
  match getKey layout (String.mk [char]) with
  | (some base, mods) =>
      (mods.flatMap (fun m => pressKey m true)) ++ [.delay]
        ++ pressKey base true ++ pressKey base false
        ++ (mods.flatMap (fun m => pressKey m false))
  | (none, _) => [.unicodeFallback char.toNat]

/-- One observable effect of `send_key_combination`: an `EV_KEY` write plus
barrier from `_press_key`, or a logged warning for an unresolvable name. -/
inductive ComboOut where
  | write (code : Nat) (value : Nat)
  | syn
  | warn (key : String)
deriving DecidableEq

/-- `send_key_combination(combo)`, with the ordered (key, pressed) pairs of
the external `parse_key_combo` collaborator passed in as data and the
external pacing iterator `with_delay` elided: each resolvable name yields
exactly one `_press_key(base, pressed)` call, each unresolvable name yields
a warning and no event. -/
def sendKeyCombination (layout : LayoutTable) :
    List (String × Bool) → List ComboOut
  | [] => []
  | (key, pressed) :: rest =>
    (match getKey layout key with
     | (some base, _) => [.write base (if pressed then 1 else 0), .syn]
     | (none, _) => [.warn key]) ++ sendKeyCombination layout rest

/-! ## KeyboardCapture: device filter -/

/-- The attributes of an `evdev.InputDevice` read by the capture class:
its name and physical path, and its capability lists per event type.
`relCaps`/`absCaps` model the `EV_REL`/`EV_ABS` entries of
`device.capabilities()`; `keyCaps` models the `EV_KEY` entry. -/
structure DeviceInfo where
  name : String
  phys : String
  keyCaps : List Nat
  relCaps : List Nat
  absCaps : List Nat
deriving DecidableEq

/-- `_filter_devices(device)`: reject the process's own synthetic uinput
device (matched by name or phys) and require at least one of a few common
keyboard keys among the `EV_KEY` capabilities. -/
def filterDevices (device : DeviceInfo) : Bool :=
  let is_uinput :=
    device.name == "py-evdev-uinput" || device.phys == "py-evdev-uinput"
  let keys := device.keyCaps
  let keyboard_keys_present :=
    [KEY_ESC, KEY_SPACE, KEY_ENTER, KEY_LEFTSHIFT].any
      (fun key => keys.contains key)
  !is_uinput && keyboard_keys_present

/-! ## KeyboardCapture: grabbing -/

/-- A device as seen by the grab loop of `_grab_devices`: whether its
`grab()` call raises. -/
structure GrabDevice where
  grabFails : Bool
deriving DecidableEq

/-- The `for device in self._devices: ...; device.grab()` loop of
`_grab_devices`, called from `start()`, with devices numbered from `i`:
devices are grabbed in order; a raising `grab()` aborts the loop and
propagates out of `start()`, and neither `_grab_devices` nor `start` has
any cleanup handler, so the devices already grabbed stay grabbed (the
ungrab cleanup lives in `_run`, which a failed `start` never launches).
Returns the indices of devices left grabbed and whether the call
returned normally. -/
def grabAllFrom (i : Nat) : List GrabDevice → List Nat × Bool
  | [] => ([], true)
  | device :: rest =>
    if device.grabFails then ([], false)
    else
      let r := grabAllFrom (i + 1) rest
      (i :: r.1, r.2)

/-- The grab phase of `start()`. -/
def startGrabs (devices : List GrabDevice) : List Nat × Bool :=
  grabAllFrom 0 devices

/-- A device as seen by the wait-before-grab logic of `_grab_devices`:
the length of `device.active_keys()` when the loop reaches the device, and
the lengths it reports after each successive `read_loop()` event. -/
structure HeldDevice where
  initialActive : Nat
  activeAfterRead : List Nat
deriving DecidableEq

/-- The `for _ in device.read_loop(): if len(device.active_keys()) == 0:
break` wait: reads and discards events one at a time, re-checking the
active keys after each; returns how many events were read before the
`break`, or `none` when the finite observation list is exhausted with keys
still held (the real loop would stay blocked reading). -/
def waitLoop : List Nat → Option Nat
  | [] => none
  | active :: rest =>
    if active = 0 then some 1
    else (waitLoop rest).map (fun n => n + 1)

/-- The per-device body of `_grab_devices`: if keys are currently held,
wait through `waitLoop` first; then `device.grab()` runs. Returns the
number of events read before the grab, `none` when the grab never
happens within the observations. -/
def grabAfterReads (device : HeldDevice) : Option Nat :=
  if 0 < device.initialActive then waitLoop device.activeAfterRead
  else some 0

/-! ## KeyboardCapture: the run loop -/

/-- An input event as consumed by `_run`: its type, code and value. -/
structure InputEvent where
  etype : Nat
  code : Nat
  value : Nat
deriving DecidableEq

/-- The mutable loop state of `_run`: the two Python sets
`keys_pressed_with_modifier` and `down_modifier_keys`, as duplicate-free
lists. -/
structure RunState where
  keysPressedWithModifier : List Nat
  downModifierKeys : List Nat
deriving DecidableEq

/-- Python `set.add`. -/
def setAdd (x : Nat) (s : List Nat) : List Nat :=
  if x ∈ s then s else s ++ [x]

/-- Python `set.discard`. -/
def setDiscard (x : Nat) (s : List Nat) : List Nat :=
  s.filter (fun y => y ≠ x)

/-- `_should_suppress(event)`: returns the suppression decision and the
updated loop state. Modifier events update `down_modifier_keys` and are
never suppressed; unmapped codes are never suppressed; a key-down with a
modifier held is recorded in `keys_pressed_with_modifier` and passed
through; a key-up of a recorded key is removed and passed through; all
remaining events are suppressed iff the key name is in
`self._suppressed_keys`. -/
def shouldSuppress (suppressedKeys : List String) (st : RunState)
    (event : InputEvent) : Bool × RunState :=
  if event.code ∈ MODIFIER_KEY_CODES then
    if event.value = key_down then
      (false, ⟨st.keysPressedWithModifier, setAdd event.code st.downModifierKeys⟩)
    else if event.value = key_up then
      (false, ⟨st.keysPressedWithModifier, setDiscard event.code st.downModifierKeys⟩)
    else
      (false, st)
  else
    match lookupLast event.code KEYCODES_TO_SUPRESS with
    | none => (false, st)
    | some key =>
      if event.value = key_down ∧ st.downModifierKeys ≠ [] then
        (false, ⟨setAdd event.code st.keysPressedWithModifier, st.downModifierKeys⟩)
      else if event.value = key_up ∧ event.code ∈ st.keysPressedWithModifier then
        (false, ⟨setDiscard event.code st.keysPressedWithModifier, st.downModifierKeys⟩)
      else
        (decide (key ∈ suppressedKeys), st)

/-- One observable effect of an iteration of the `_run` event loop: a
`key_down`/`key_up` callback to the consumer, or a passed-through event
written to the synthetic UInput device. -/
inductive LoopOut where
  | callDown (name : String)
  | callUp (name : String)
  | pass (event : InputEvent)
deriving DecidableEq

/-- The body of `_run`'s `for event in device.read()` loop for one event.
For an `EV_KEY` event the code first evaluates
`KEYCODES_TO_SUPRESS[event.code]`, a plain dict indexing: `none` here
models the `KeyError` that aborts the loop (the event is neither passed
through nor reported). Otherwise the callbacks fire by value, then
`_should_suppress` decides whether the event is re-emitted. Non-`EV_KEY`
events are passed through unconditionally. -/
def runStep (suppressedKeys : List String) (st : RunState)
    (event : InputEvent) : Option (List LoopOut × RunState) :=
  if event.etype = EV_KEY then
    match lookupLast event.code KEYCODES_TO_SUPRESS with
    | none => none
    | some key_name =>
      let calls : List LoopOut :=
        if event.value = key_down then [.callDown key_name]
        else if event.value = key_up then [.callUp key_name]
        else []
      let r := shouldSuppress suppressedKeys st event
      if r.1 then some (calls, r.2) else some (calls ++ [.pass event], r.2)
  else
    some ([.pass event], st)

/-- The `_run` loop over a finite event sequence: accumulated observable
effects, final state, and whether the loop was aborted by the unhandled
`KeyError` (after which the `finally` block ungrabs and the thread
exits). -/
def runEvents (suppressedKeys : List String) (st : RunState) :
    List InputEvent → List LoopOut × RunState × Bool
  | [] => ([], st, false)
  | event :: rest =>
    match runStep suppressedKeys st event with
    | none => ([], st, true)
    | some (outs, st2) =>
      let r := runEvents suppressedKeys st2 rest
      (outs ++ r.1, r.2.1, r.2.2)

/-! ## Helper lemmas -/

theorem lookupLast_mem {κ α : Type} [DecidableEq κ] {key : κ} {v : α} :
    ∀ {l : List (κ × α)}, lookupLast key l = some v → (key, v) ∈ l := by
  intro l
  induction l with
  | nil => intro h; simp [lookupLast] at h
  | cons p rest ih =>
    intro h
    obtain ⟨a, b⟩ := p
    rw [lookupLast] at h
    cases hr : lookupLast key rest with
    | some w =>
      rw [hr] at h
      injection h with h2
      subst h2
      exact List.mem_cons_of_mem _ (ih hr)
    | none =>
      rw [hr] at h
      by_cases hk : a = key
      · subst hk
        rw [if_pos rfl] at h
        injection h with h2
        subst h2
        exact List.mem_cons_self _ _
      · rw [if_neg hk] at h
        exact absurd h (by simp)

theorem reverse_eq_of_length_le_one {α : Type} {l : List α}
    (h : l.length ≤ 1) : l.reverse = l := by
  match l with
  | [] => rfl
  | [x] => rfl
  | x :: y :: rest => simp at h

set_option maxRecDepth 100000 in
/-- In every bundled layout, every entry needs at most one modifier: the
only modifier ever listed is a single left shift. -/
theorem layouts_modifiers_short :
    ∀ q ∈ LAYOUTS, ∀ p ∈ q.2, p.2.modifiers.length ≤ 1 := by decide

/-! ## Claim theorems -/

set_option maxRecDepth 100000 in
/-- C1: the claim says a key event whose scan code has no entry in the
reverse map is passed through unmodified with no callback and without
ending the loop. The code instead evaluates
`KEYCODES_TO_SUPRESS[event.code]` before any membership check, so such an
event raises `KeyError` and aborts the loop: at a caps-lock key-down
(a code absent from the reverse map) the loop produces no passthrough, no
callback, and terminates abnormally. -/
theorem c1_unmapped_scan_code_crashes_loop :
    lookupLast KEY_CAPSLOCK KEYCODES_TO_SUPRESS = none ∧
      runEvents [] ⟨[], []⟩ [⟨EV_KEY, KEY_CAPSLOCK, key_down⟩] =
        ([], ⟨[], []⟩, true) := by decide

set_option maxRecDepth 100000 in
/-- C3: with suppression set `{"a"}`, no modifier held and empty state,
the sequence [key-down(a), key-up(a)] writes zero events to the synthetic
output device and delivers exactly the callbacks key_down("a") then
key_up("a"). -/
theorem c3_suppressed_tap_reaches_consumer_only :
    runEvents ["a"] ⟨[], []⟩
      [⟨EV_KEY, KEY_A, key_down⟩, ⟨EV_KEY, KEY_A, key_up⟩] =
      ([.callDown "a", .callUp "a"], ⟨[], []⟩, false) := by decide

/-- The eight printable-ASCII characters that have no entry in the qwertz
table. -/
def qwertzMissing : List String :=
  [":", ";", "[", "\\", "]", "\x7b", "|", "\x7d"]

set_option maxRecDepth 100000 in
/-- C4 counterexample: "[" is a printable ASCII character outside the five
excluded control characters, yet it is not a key of the qwertz layout
mapping, so resolving it in qwertz fails. -/
theorem c4_counterexample_qwertz_lacks_bracket :
    ("[") ∈ requiredKeys ∧ resolves qwertz ("[") = false := by decide

set_option maxRecDepth 100000 in
/-- C4 amended: every printable ASCII character except the five excluded
control characters resolves in qwerty, colemak and colemak-dh; in qwertz,
such a character resolves exactly when it is not one of the eight
characters : ; [ \ ] brace-left vertical-bar brace-right. -/
theorem c4_printable_coverage_per_layout :
    requiredKeys.all (fun c =>
      resolves qwerty c && resolves colemak c && resolves colemakDh c
        && (resolves qwertz c == !qwertzMissing.contains c)) = true := by decide

/-- A device exposing relative pointer capabilities, with a single key
capability (escape only): a mouse with a button mapped to escape. -/
def mouseDevice : DeviceInfo := ⟨"Some Mouse", "usb-0", [KEY_ESC], [0, 1], []⟩

/-- C6 counterexample: the filter accepts this device even though it
exposes relative pointer capabilities, has fewer key capabilities than any
reasonable minimum count, and lacks three of the four
proof-of-keyboard-ness keys — the claim's pointer, count, and all-keys
checks are not performed by the code. -/
theorem c6_counterexample_pointer_device_accepted :
    filterDevices mouseDevice = true ∧ mouseDevice.relCaps ≠ [] ∧
      mouseDevice.keyCaps.length < 4 ∧ KEY_SPACE ∉ mouseDevice.keyCaps ∧
      KEY_ENTER ∉ mouseDevice.keyCaps ∧ KEY_LEFTSHIFT ∉ mouseDevice.keyCaps := by
  decide

/-- C6 amended: the filter accepts a device iff it is not the process's
own synthetic device (neither name nor phys equals the reserved
identifier) and at least one of escape, space, enter, left-shift is among
its key capabilities; no pointer-capability or minimum-key-count check is
performed. -/
theorem c6_filter_characterization (device : DeviceInfo) :
    filterDevices device = true ↔
      (device.name ≠ "py-evdev-uinput" ∧ device.phys ≠ "py-evdev-uinput") ∧
        (KEY_ESC ∈ device.keyCaps ∨ KEY_SPACE ∈ device.keyCaps ∨
          KEY_ENTER ∈ device.keyCaps ∨ KEY_LEFTSHIFT ∈ device.keyCaps) := by
  simp [filterDevices, not_or]

/-- C10: an autorepeat (key-hold) event for a mapped non-modifier key,
with no modifier held and the key not recorded in
`keys_pressed_with_modifier`, invokes no callback, leaves the state
unchanged, and is suppressed iff the key's name is in the suppression
set. -/
theorem c10_autorepeat_no_callback_suppress_iff (suppressedKeys : List String)
    (a : Nat) (aname : String) (st : RunState)
    (ha : a ∉ MODIFIER_KEY_CODES)
    (han : lookupLast a KEYCODES_TO_SUPRESS = some aname)
    (hdm : st.downModifierKeys = [])
    (hkp : a ∉ st.keysPressedWithModifier) :
    runStep suppressedKeys st ⟨EV_KEY, a, key_hold⟩ =
      some ((if aname ∈ suppressedKeys then []
             else [.pass ⟨EV_KEY, a, key_hold⟩]), st) := by
  simp only [runStep, shouldSuppress, EV_KEY, key_hold, key_down, key_up]
  simp [ha, han]
  by_cases hs : aname ∈ suppressedKeys <;> simp [hs]

/-- C10 witness: autorepeat of the "a" key with suppression set `{"a"}`
from the empty state yields no output at all. -/
theorem c10_autorepeat_witness :
    runStep ["a"] ⟨[], []⟩ ⟨EV_KEY, KEY_A, key_hold⟩ = some ([], ⟨[], []⟩) := by
  have h := c10_autorepeat_no_callback_suppress_iff ["a"] KEY_A "a" ⟨[], []⟩
    (by decide) (by decide) rfl (by decide)
  simpa using h

/-- C2: for every suppression set, running the state machine from the
empty state on [modifier-down, key-down(A), modifier-up, key-up(A)], with
A any mapped non-modifier key, passes every event through — in particular
the final key-up(A) is written to the synthetic output device even though
the modifier was released before A. -/
theorem c2_chorded_keyup_always_passes (suppressedKeys : List String)
    (m a : Nat) (mname aname : String)
    (hm : m ∈ MODIFIER_KEY_CODES)
    (hmn : lookupLast m KEYCODES_TO_SUPRESS = some mname)
    (ha : a ∉ MODIFIER_KEY_CODES)
    (han : lookupLast a KEYCODES_TO_SUPRESS = some aname) :
    runEvents suppressedKeys ⟨[], []⟩
      [⟨EV_KEY, m, key_down⟩, ⟨EV_KEY, a, key_down⟩,
       ⟨EV_KEY, m, key_up⟩, ⟨EV_KEY, a, key_up⟩] =
      ([.callDown mname, .pass ⟨EV_KEY, m, key_down⟩,
        .callDown aname, .pass ⟨EV_KEY, a, key_down⟩,
        .callUp mname, .pass ⟨EV_KEY, m, key_up⟩,
        .callUp aname, .pass ⟨EV_KEY, a, key_up⟩], ⟨[], []⟩, false) := by
  simp [runEvents, runStep, shouldSuppress, hm, hmn, ha, han, setAdd, setDiscard,
    key_down, key_up, EV_KEY]

set_option maxRecDepth 100000 in
/-- C2 witness: left shift and the "a" key, with "a" in the suppression
set: all four events pass through, ending with key-up of "a". -/
theorem c2_chorded_keyup_witness :
    runEvents ["a"] ⟨[], []⟩
      [⟨EV_KEY, KEY_LEFTSHIFT, key_down⟩, ⟨EV_KEY, KEY_A, key_down⟩,
       ⟨EV_KEY, KEY_LEFTSHIFT, key_up⟩, ⟨EV_KEY, KEY_A, key_up⟩] =
      ([.callDown "shift", .pass ⟨EV_KEY, KEY_LEFTSHIFT, key_down⟩,
        .callDown "a", .pass ⟨EV_KEY, KEY_A, key_down⟩,
        .callUp "shift", .pass ⟨EV_KEY, KEY_LEFTSHIFT, key_up⟩,
        .callUp "a", .pass ⟨EV_KEY, KEY_A, key_up⟩], ⟨[], []⟩, false) :=
  c2_chorded_keyup_always_passes ["a"] KEY_LEFTSHIFT KEY_A "shift" "a"
    (by decide) (by decide) (by decide) (by decide)

/-- C5: for a character of a bundled layout, `_send_char` emits the
modifier-down events in listed order, a pacing delay, the base key down
and up, then the modifier-up events in the reverse of the listed order
(every bundled entry has at most one modifier, so the source's
forward-order release loop coincides with the reverse order); for a
character with no layout entry the Unicode fallback is performed
instead. -/
theorem c5_send_char_modifier_bracketing (layoutName : String)
    (layout : LayoutTable) (char : Char)
    (hmem : (layoutName, layout) ∈ LAYOUTS) :
    (∀ info, lookupLast (String.mk [char]) layout = some info →
      sendChar layout char =
        info.modifiers.flatMap (fun m => [EmuAction.write m 1, .syn])
          ++ [.delay]
          ++ [.write info.keycode 1, .syn, .write info.keycode 0, .syn]
          ++ info.modifiers.reverse.flatMap (fun m => [EmuAction.write m 0, .syn])) ∧
    (lookupLast (String.mk [char]) layout = none →
      sendChar layout char = [.unicodeFallback char.toNat]) := by
  constructor
  · intro info hinfo
    have hin : (String.mk [char], info) ∈ layout := lookupLast_mem hinfo
    have hlen : info.modifiers.length ≤ 1 :=
      layouts_modifiers_short (layoutName, layout) hmem (String.mk [char], info) hin
    have hrev : info.modifiers.reverse = info.modifiers :=
      reverse_eq_of_length_le_one hlen
    rw [hrev]
    simp [sendChar, getKey, hinfo, pressKey]
  · intro h
    simp [sendChar, getKey, h]

set_option maxRecDepth 100000 in
/-- C5 witness: typing the character at code point 65 (uppercase A) on
qwerty presses left shift, the A key down and up, then releases left
shift. -/
theorem c5_send_char_witness :
    sendChar qwerty (Char.ofNat 65) =
      [EmuAction.write KEY_LEFTSHIFT 1, .syn, .delay,
       .write KEY_A 1, .syn, .write KEY_A 0, .syn,
       .write KEY_LEFTSHIFT 0, .syn] := by
  have h := (c5_send_char_modifier_bracketing "qwerty" qwerty (Char.ofNat 65)
    (by simp [LAYOUTS])).1 ⟨KEY_A, [KEY_LEFTSHIFT]⟩ (by decide)
  simpa using h

/-- C7 counterexample: with two devices of which the second fails to
grab, `start()` propagates the failure, yet the first device is still
listed as grabbed — it is not released before the error reaches the
caller. -/
theorem c7_counterexample_failed_start_keeps_grab :
    (startGrabs [⟨false⟩, ⟨true⟩]).2 = false ∧
      (startGrabs [⟨false⟩, ⟨true⟩]).1 = [0] := by decide

theorem grabAllFrom_fail_after :
    ∀ (pre : List GrabDevice) (i : Nat), (∀ x ∈ pre, x.grabFails = false) →
      ∀ (d : GrabDevice), d.grabFails = true → ∀ (post : List GrabDevice),
        grabAllFrom i (pre ++ d :: post) = (List.range' i pre.length, false) := by
  intro pre
  induction pre with
  | nil =>
    intro i _ d hd post
    simp [grabAllFrom, hd]
  | cons x rest ih =>
    intro i hpre d hd post
    have hx : x.grabFails = false := hpre x (List.mem_cons_self x rest)
    have hrest : ∀ y ∈ rest, y.grabFails = false :=
      fun y hy => hpre y (List.mem_cons_of_mem x hy)
    rw [List.cons_append, grabAllFrom, hx]
    simp only [Bool.false_eq_true, if_false]
    rw [ih (i + 1) hrest d hd post]
    simp [List.range'_succ]

/-- C7 amended: when grabbing one device fails during the grab-all phase
of `start()`, the failure propagates to the caller, but every device
grabbed before the failure REMAINS grabbed — no release happens during a
failed `start()` (the ungrab cleanup belongs to the run loop, which is
never started). -/
theorem c7_failed_start_leaves_earlier_devices_grabbed
    (pre post : List GrabDevice) (d : GrabDevice)
    (hpre : ∀ x ∈ pre, x.grabFails = false) (hd : d.grabFails = true) :
    startGrabs (pre ++ d :: post) = (List.range pre.length, false) := by
  rw [startGrabs, grabAllFrom_fail_after pre 0 hpre d hd post,
    List.range_eq_range']

/-- C7 witness: one healthy device before the failing one, one after:
`start()` fails and exactly device 0 is left grabbed. -/
theorem c7_failed_start_witness :
    startGrabs [⟨false⟩, ⟨true⟩, ⟨false⟩] = ([0], false) := by
  have h := c7_failed_start_leaves_earlier_devices_grabbed
    [⟨false⟩] [⟨false⟩] ⟨true⟩ (by decide) rfl
  simpa using h

theorem waitLoop_spec :
    ∀ (l : List Nat) (n : Nat), waitLoop l = some n →
      ∃ m, n = m + 1 ∧ l[m]? = some 0 := by
  intro l
  induction l with
  | nil =>
    intro n h
    simp [waitLoop] at h
  | cons a rest ih =>
    intro n h
    by_cases hz : a = 0
    · rw [waitLoop, if_pos hz] at h
      injection h with h2
      exact ⟨0, h2.symm, by simp [hz]⟩
    · rw [waitLoop, if_neg hz] at h
      cases hr : waitLoop rest with
      | none => rw [hr] at h; simp at h
      | some n2 =>
        rw [hr] at h
        have h2 : n2 + 1 = n := by simpa using h
        obtain ⟨m, hm1, hm2⟩ := ih n2 hr
        refine ⟨m + 1, by omega, by simpa using hm2⟩

/-- C8: whenever the per-device wait-then-grab logic grabs after reading
`n` events, the active-key count observed at that point is zero — the
grab never happens while the device reports a held key — and when keys
were held at entry, at least one event was read (and discarded) first. -/
theorem c8_grab_only_after_all_keys_released (device : HeldDevice) (n : Nat)
    (h : grabAfterReads device = some n) :
    (device.initialActive :: device.activeAfterRead)[n]? = some 0 ∧
      (0 < device.initialActive → 0 < n) := by
  rw [grabAfterReads] at h
  by_cases h0 : 0 < device.initialActive
  · rw [if_pos h0] at h
    obtain ⟨m, hm1, hm2⟩ := waitLoop_spec device.activeAfterRead n h
    subst hm1
    exact ⟨by simpa using hm2, fun _ => Nat.succ_pos m⟩
  · rw [if_neg h0] at h
    injection h with h2
    subst h2
    have hz : device.initialActive = 0 := by omega
    exact ⟨by simp [hz], fun hc => absurd hc h0⟩

/-- C8 witness: a device with one key held at entry and observed counts
2, 0, 3 after successive reads grabs after reading two events, at which
point the observed count is zero. -/
theorem c8_grab_witness :
    ((1 : Nat) :: [2, 0, 3])[2]? = some 0 ∧ (0 < (1 : Nat) → 0 < (2 : Nat)) :=
  c8_grab_only_after_all_keys_released ⟨1, [2, 0, 3]⟩ 2 (by decide)

/-- The `EV_KEY` write produced by a combo output, if any. -/
def comboWrite : ComboOut → Option (Nat × Nat)
  | .write code value => some (code, value)
  | _ => none

/-- The warning produced by a combo output, if any. -/
def comboWarn : ComboOut → Option String
  | .warn key => some key
  | _ => none

/-- C9: over an arbitrary (key, pressed) sequence from the external combo
parser, the key events emitted by `send_key_combination` are exactly one
event per resolvable name, in order, with that event's pressed value (no
synthetic press+release pairing), and the warnings are exactly the
unresolvable names, which emit nothing; the function is total, so no
combo raises. -/
theorem c9_combo_single_event_per_pair (layout : LayoutTable)
    (pairs : List (String × Bool)) :
    ((sendKeyCombination layout pairs).filterMap comboWrite =
      pairs.filterMap (fun p => (lookupLast p.1 layout).map
        (fun info => (info.keycode, if p.2 then 1 else 0)))) ∧
    ((sendKeyCombination layout pairs).filterMap comboWarn =
      (pairs.filter (fun p => !resolves layout p.1)).map (fun p => p.1)) := by
  induction pairs with
  | nil => simp [sendKeyCombination]
  | cons p rest ih =>
    obtain ⟨key, pressed⟩ := p
    rw [sendKeyCombination]
    cases h : lookupLast key layout with
    | some info =>
      simp [getKey, h, List.filterMap_append, comboWrite, comboWarn,
        resolves, ih.1, ih.2]
    | none =>
      simp [getKey, h, List.filterMap_append, comboWrite, comboWarn,
        resolves, ih.1, ih.2]

end Plover
